import Mathlib

/-!
Verification of the named data-source registry of conky (src/data-source.hh),
as a shallow embedding in Lean 4.

The header defines inline: `simple_numeric_source<T>` (its constructor and
`get_number`), the `register_data_source<T>::factory` lua bridge, and the
metatable key `priv::data_source_metatable`.  The bodies of
`data_source_base::get_number`, `data_source_base::get_text`,
`priv::do_register_data_source`, the `priv::disabled_data_source` constructor
and `export_data_sources` live in data-source.cc, which is not part of the
sources here; those are modelled from the specification and marked as such in
their doc comments.

Doubles are modelled by an inductive with an explicit NaN; C++ pointers to
external scalars are modelled by locations into an explicit store.
-/

namespace conky

/-- A double value: either NaN or a finite rational. -/
inductive Dbl where
  | nan : Dbl
  | fin : ℚ → Dbl
deriving DecidableEq

/-- A memory location holding an external scalar (a C++ `const T *`). -/
abbrev Loc := Nat

/-- The external memory: the current value of every scalar a data source may borrow. -/
abbrev Store := Loc → Dbl

/-- Pointwise store update: the effect of an external collector writing a new value. -/
def storeUpdate (σ : Store) (a : Loc) (v : Dbl) : Store :=
  fun x => if x = a then v else σ x

/--
A `data_source_base` object (data-source.hh lines 47-58).  `name` is the const
member fixed by the constructor.  A derived class may override `get_number`
and/or `get_text`; a `none` field means the base-class default is used, `some f`
is the overriding virtual implementation (a pure function of the object's
borrowed state, i.e. of the store).
-/
structure DataSource where
  name : String
  number : Option (Store → Dbl)
  text : Option (Store → String)

/-- The fixed string rendered for a NaN value by the default `get_text`.
Modelled from the spec: the body of `data_source_base::get_text` is in
data-source.cc, absent from src/; the spec documents "an unavailability marker
when NaN".  C++ iostream renders NaN as "nan". -/
def unavailable_text : String := "nan"

/-- Scale a nonnegative rational to six decimal places, rounding half up:
⌊q·10⁶ + 1/2⌋ computed on the numerator/denominator. -/
def scaled6 (q : ℚ) : Int :=
  (q.num * 2000000 + (q.den : Int)) / (2 * (q.den : Int))

/-- Left-pad a digit string with zeros to six characters. -/
def pad6 (s : String) : String :=
  String.mk (List.replicate (6 - s.length) '0') ++ s

/-- Fixed-point rendering of the scaled value `n` = V·10⁶ : integer part, a
decimal point, and six fractional digits (printf `%f` format). -/
def renderFixedNat (n : Nat) : String :=
  toString (n / 1000000) ++ "." ++ pad6 (toString (n % 1000000))

/-- The canonical fixed-precision (six decimal places) rendering of a finite
double, as produced for `get_text` by formatting `get_number()`.
Modelled from the spec: the formatting body is in data-source.cc, absent from
src/; the spec documents "decimal rendering of get_number" with the example
`text() == "120.500000"` for the value 120.5. -/
def renderFixed (q : ℚ) : String :=
  if q < 0 then "-" ++ renderFixedNat (scaled6 (-q)).toNat
  else renderFixedNat (scaled6 q).toNat

/-- Rendering used by the default `get_text`: the fixed marker for NaN, the
canonical decimal rendering for a finite value.  Modelled from the spec (the
body of `data_source_base::get_text` is in data-source.cc, absent from src/). -/
def defaultText : Dbl → String
  | Dbl.nan => unavailable_text
  | Dbl.fin v => renderFixed v

/-- Virtual dispatch of `get_number` (data-source.hh line 56).  The default
implementation is modelled from the spec: its body is in data-source.cc, absent
from src/; both the header comment and the spec state "The default
implementation returns NaN." -/
def get_number (ds : DataSource) (σ : Store) : Dbl :=
  match ds.number with
  | some f => f σ
  | none => Dbl.nan

/-- Virtual dispatch of `get_text` (data-source.hh line 57).  The default
implementation is modelled from the spec: its body is in data-source.cc, absent
from src/; the header comment and the spec state that the default converts
`get_number()` to a string. -/
def get_text (ds : DataSource) (σ : Store) : String :=
  match ds.text with
  | some f => f σ
  | none => defaultText (get_number ds σ)

/--
`simple_numeric_source<T>` (data-source.hh lines 65-77): the constructor takes
a `lua::state *` it never reads, the name, and a borrowed pointer to an
external scalar; `get_number` is overridden to `return *source;`, a read of the
referenced scalar at call time.  `get_text` is not overridden.  The lua-state
argument is given an arbitrary type `L`, since no part of it is used.
-/
def simple_numeric_source {L : Type} (_l : L) (name_ : String) (source_ : Loc) : DataSource :=
  { name := name_
    number := some (fun σ => σ source_)
    text := none }

namespace priv

/-- `priv::data_source_metatable` (data-source.hh line 80): the registry key of
the single shared metatable used to tag every constructed data source. -/
def data_source_metatable : String := "conky::data_source_metatable"

/--
`priv::disabled_data_source` (data-source.hh lines 84-88): a
`simple_numeric_source<float>` whose declaration adds only a constructor — it
declares no `get_text` override and stores no field for `setting`, so `text` is
inherited (`none`) and the constructed object cannot depend on `setting`.
Modelled from the spec for the constructor body (it is in data-source.cc,
absent from src/): the spec states `numeric()` is NaN for every call, so the
borrowed scalar is a library-owned NaN, modelled as a constant-NaN read.
-/
def disabled_data_source {L : Type} (_l : L) (name_ : String) (_setting : String) : DataSource :=
  { name := name_
    number := some (fun _ => Dbl.nan)
    text := none }

end priv

/-- Whether the character list `nee` occurs at the start of the second list. -/
def prefixOfL : List Char → List Char → Bool
  | [], _ => true
  | _ :: _, [] => false
  | a :: as, b :: bs => a = b && prefixOfL as bs

/-- Whether the character list `nee` occurs as a contiguous sublist. -/
def subOfL (nee : List Char) : List Char → Bool
  | [] => prefixOfL nee []
  | b :: bs => prefixOfL nee (b :: bs) || subOfL nee bs

/-- Substring containment: `nee` occurs contiguously inside `hay`. -/
def strContains (hay nee : String) : Bool := subOfL nee.data hay.data

end conky

namespace conky

/-! ### Rendering lemmas -/

theorem dot_mem_renderFixedNat (n : Nat) : '.' ∈ (renderFixedNat n).data := by
  unfold renderFixedNat
  rw [String.data_append, String.data_append]
  exact List.mem_append_left _ (List.mem_append_right _ (by decide))

theorem dot_mem_renderFixed (q : ℚ) : '.' ∈ (renderFixed q).data := by
  unfold renderFixed
  split
  · rw [String.data_append]
    exact List.mem_append_right _ (dot_mem_renderFixedNat _)
  · exact dot_mem_renderFixedNat _

/-- The canonical decimal rendering of a finite value always contains a decimal
point, so it is never the NaN marker. -/
theorem renderFixed_ne_unavailable (q : ℚ) : renderFixed q ≠ unavailable_text := by
  intro h
  have hd := dot_mem_renderFixed q
  rw [h] at hd
  exact absurd hd (by decide)

/-- The spec example value 120.5, as an explicit reduced fraction. -/
def uptimeVal : ℚ := ⟨241, 2, by decide, by decide⟩

/-! ### Claim theorems, first batch -/

/-- C1: `simple_numeric_source::get_number` reads the referenced scalar at call
time: its result is the store's current value at the borrowed location, and
after the external scalar is mutated, a subsequent call on the same instance
returns the new value, never a value captured at construction. -/
theorem simple_numeric_reads_current_value :
    ∀ {L : Type} (l : L) (n : String) (src : Loc) (σ : Store) (v : Dbl),
      get_number (simple_numeric_source l n src) σ = σ src ∧
      get_number (simple_numeric_source l n src) (storeUpdate σ src v) = v := by
  intro L l n src σ v
  exact ⟨rfl, by simp [get_number, simple_numeric_source, storeUpdate]⟩

/-- C2: for every `disabled_data_source`, whatever its name and setting and
whatever the external store holds, `get_number()` returns NaN. -/
theorem disabled_get_number_nan :
    ∀ {L : Type} (l : L) (n setting : String) (σ : Store),
      get_number (priv.disabled_data_source l n setting) σ = Dbl.nan := by
  intro _ _ _ _ _
  rfl

/-- C3 counterexample: the disabled source registered for "nvidia_temp" with
setting "BUILD_NVIDIA" has a `get_text()` that does NOT contain the setting
identifier — `disabled_data_source` declares no `get_text` override and stores
no `setting` field, so `get_text` is the base default, the fixed NaN marker. -/
theorem disabled_get_text_setting_counterexample :
    strContains
      (get_text (priv.disabled_data_source (0 : Nat) "nvidia_temp" "BUILD_NVIDIA")
        (fun _ => Dbl.nan))
      "BUILD_NVIDIA" = false := rfl

/-- C3 amended: `get_text()` of a disabled source returns the fixed
unavailability marker (the default rendering of its NaN numeric value); the
result is independent of the `setting` identifier and does not embed it. -/
theorem disabled_get_text_fixed_marker :
    ∀ {L : Type} (l : L) (n s₁ s₂ : String) (σ : Store),
      get_text (priv.disabled_data_source l n s₁) σ = unavailable_text ∧
      get_text (priv.disabled_data_source l n s₁) σ
        = get_text (priv.disabled_data_source l n s₂) σ := by
  intro _ _ _ _ _ _
  exact ⟨rfl, rfl⟩

/-- C5: for a data source that does not override `get_text`, if `get_number()`
is a finite value V then `get_text()` is the canonical fixed-precision decimal
rendering of V (and not the unavailability marker), and if `get_number()` is
NaN then `get_text()` is the unavailability marker. -/
theorem default_get_text_rendering (ds : DataSource) (σ : Store) (h : ds.text = none) :
    (∀ v : ℚ, get_number ds σ = Dbl.fin v →
      get_text ds σ = renderFixed v ∧ get_text ds σ ≠ unavailable_text) ∧
    (get_number ds σ = Dbl.nan → get_text ds σ = unavailable_text) := by
  constructor
  · intro v hv
    have hr : get_text ds σ = renderFixed v := by
      simp [get_text, h, hv, defaultText]
    exact ⟨hr, hr ▸ renderFixed_ne_unavailable v⟩
  · intro hv
    simp [get_text, h, hv, defaultText]

/-- Witness for C5: a numeric source over a scalar holding 120.5 renders
exactly "120.500000", the spec's documented example. -/
theorem default_get_text_rendering_witness :
    (simple_numeric_source (0 : Nat) "uptime" 0).text = none ∧
    get_text (simple_numeric_source (0 : Nat) "uptime" 0) (fun _ => Dbl.fin uptimeVal)
      = "120.500000" := by
  refine ⟨rfl, ?_⟩
  have h := (default_get_text_rendering (simple_numeric_source (0 : Nat) "uptime" 0)
    (fun _ => Dbl.fin uptimeVal) rfl).1 uptimeVal rfl
  exact h.1.trans (by rfl)

/-- C6: a data source that does not override `get_number` gets the base-class
default, which returns NaN. -/
theorem default_get_number_nan (ds : DataSource) (σ : Store) (h : ds.number = none) :
    get_number ds σ = Dbl.nan := by
  simp [get_number, h]

/-- Witness for C6: a concrete source with no overrides yields NaN. -/
theorem default_get_number_nan_witness :
    (DataSource.mk "custom" none none).number = none ∧
    get_number (DataSource.mk "custom" none none) (fun _ => Dbl.fin 7) = Dbl.nan :=
  ⟨rfl, default_get_number_nan _ _ rfl⟩

/-- C10: the `simple_numeric_source` constructor ignores the lua state (and any
script-supplied arguments): constructions from different lua states — even of
different types — with the same name and scalar location yield the same object,
and `get_number` depends only on the referenced scalar's current value. -/
theorem ctor_ignores_lua_state :
    ∀ {L₁ L₂ : Type} (l₁ : L₁) (l₂ : L₂) (n : String) (src : Loc) (σ : Store),
      simple_numeric_source l₁ n src = simple_numeric_source l₂ n src ∧
      get_number (simple_numeric_source l₁ n src) σ = σ src := by
  intro _ _ _ _ _ _ _
  exact ⟨rfl, rfl⟩

end conky

namespace conky

/-! ### The lua object bridge (register_data_source::factory, lines 96-120) -/

/-- A value on the lua stack: a userdata handle into the heap of bridged
objects, the shared metatable fetched from the lua registry, an ordinary lua
table (e.g. the argument table a script passes), or nil. -/
inductive LuaVal where
  | userdata (id : Nat)
  | metatbl (key : String)
  | table (id : Nat)
  | nilv
deriving DecidableEq

/-- The lua-side state the factory manipulates: the stack (bottom first, so
C++ index 1 is the head), and the heap of userdata slots.  Each slot holds the
constructed object (`none` while the storage is allocated but the constructor
has not yet run) and the metatable key attached to it (`none` until
`setmetatable`). -/
structure LuaSt where
  stack : List LuaVal
  objs : List (Option DataSource × Option String)

/-- `l->newuserdata(sizeof(T))` (line 101): allocates a fresh, not yet
constructed slot of the heap and pushes a userdata handle to it. -/
def newuserdata (s : LuaSt) : LuaSt :=
  { stack := s.stack ++ [LuaVal.userdata s.objs.length]
    objs := s.objs ++ [(none, none)] }

/-- `l->insert(1)` (line 102): moves the top of the stack to position 1. -/
def insert1 (s : LuaSt) : LuaSt :=
  match s.stack.getLast? with
  | some v => { s with stack := v :: s.stack.dropLast }
  | none => s

/-- `new(t) T(l, name, args...)` (line 103): constructs the object in place in
slot `id`, leaving its metatable assignment untouched. -/
def constructAt (s : LuaSt) (id : Nat) (ds : DataSource) : LuaSt :=
  match s.objs[id]? with
  | some (_, m) => { s with objs := s.objs.set id (some ds, m) }
  | none => s

/-- `l->rawgetfield(lua::REGISTRYINDEX, priv::data_source_metatable)`
(line 105): pushes the shared metatable stored in the lua registry under that
key.  Modelled from the spec: the code registering the metatable in the lua
registry is in data-source.cc, absent from src/; the spec documents a single
shared type descriptor per capability set, registered under this key. -/
def pushRegistryMetatable (s : LuaSt) : LuaSt :=
  { s with stack := s.stack ++ [LuaVal.metatbl priv.data_source_metatable] }

/-- `l->setmetatable(-2)` (line 106): pops the metatable on top of the stack
and attaches it to the userdata at index -2. -/
def setmetatableNeg2 (s : LuaSt) : LuaSt :=
  match s.stack.getLast?, s.stack.dropLast.getLast? with
  | some (LuaVal.metatbl k), some (LuaVal.userdata id) =>
    match s.objs[id]? with
    | some (o, _) => { stack := s.stack.dropLast, objs := s.objs.set id (o, some k) }
    | none => { s with stack := s.stack.dropLast }
  | _, _ => s

/-- A variant's constructor as seen by the factory: it receives the lua state
after `insert(1)` plus the captured name; any extra captured construction
arguments are already bound inside the closure. -/
abbrev VariantCtor := LuaSt → String → DataSource

/-- `register_data_source<T>::factory` (lines 99-108), statement by statement:
allocate a userdata slot sized for the variant, move the handle to the bottom,
construct the variant in place from the captured name (and captured extra
arguments inside `c`), drop everything above the handle (`settop(1)`), fetch
the shared metatable from the registry and attach it, leaving the handle as the
single result on the stack. -/
def factory (c : VariantCtor) (name_ : String) (s : LuaSt) : LuaSt :=
  let s1 := newuserdata s
  let s2 := insert1 s1
  let s3 := constructAt s2 (s.objs.length) (c s2 name_)
  let s4 : LuaSt := { s3 with stack := s3.stack.take 1 }
  setmetatableNeg2 (pushRegistryMetatable s4)

/-- The lua state a variant's constructor observes: the freshly allocated
handle has been moved to the bottom of the stack and the new slot exists but is
not yet constructed. -/
def midState (s : LuaSt) : LuaSt :=
  { stack := LuaVal.userdata s.objs.length :: s.stack
    objs := s.objs ++ [(none, none)] }

/-- A registered factory: a lua function taking the lua state to the state
after the call. -/
abbrev Factory := LuaSt → LuaSt

/-- The process-wide registry `data_sources_t` (line 131), keyed by name.
Modelled from the spec for `do_register_data_source`, whose body is in
data-source.cc, absent from src/: the registry is append-only during the
write-only registration phase, with unique keys. -/
abbrev Registry := List (String × Factory)

/-- `priv::do_register_data_source` (line 82).  Modelled from the spec: its
body is in data-source.cc, absent from src/; it inserts `(name, fn)` into the
registry, performing no lookup (write-only phase). -/
def do_register_data_source (name_ : String) (fn : Factory) (r : Registry) : Registry :=
  r ++ [(name_, fn)]

/-- `register_data_source<T>::register_data_source` (lines 111-119): binds the
captured name (and extra arguments, inside `c`) into the factory and registers
the pair. -/
def register_data_source (name_ : String) (c : VariantCtor) (r : Registry) : Registry :=
  do_register_data_source name_ (factory c name_) r

/-- The scripting environment's global namespace: at most one callable per
name. -/
abbrev Globals := String → Option Factory

/-- A scripting environment with no data-source constructors bound yet. -/
def emptyGlobals : Globals := fun _ => none

/-- `export_data_sources` (line 133).  Modelled from the spec: its body is in
data-source.cc, absent from src/; it iterates every registry entry and binds it
as a callable under its name in the global namespace. -/
def export_data_sources (r : Registry) (g : Globals) : Globals :=
  r.foldl (fun g p => Function.update g p.1 (some p.2)) g

end conky

namespace conky

/-! ### Bridge and registry lemmas -/

theorem set_concat_length {α : Type} (l : List α) (a b : α) :
    (l ++ [a]).set l.length b = l ++ [b] := by
  induction l with
  | nil => rfl
  | cons x xs ih => simp [ih]

/-- Closed form of one factory invocation: the stack afterwards holds exactly
the new userdata handle, and the heap gains exactly one slot, holding the
variant constructed from the captured name and tagged with the shared
metatable. -/
theorem factory_run (c : VariantCtor) (n : String) (s : LuaSt) :
    factory c n s =
      { stack := [LuaVal.userdata s.objs.length]
        objs := s.objs ++ [(some (c (midState s) n), some priv.data_source_metatable)] } := by
  unfold factory newuserdata insert1 constructAt setmetatableNeg2 pushRegistryMetatable midState
  simp [List.getLast?_concat, List.dropLast_concat, List.getElem?_concat_length,
    set_concat_length]

theorem export_cons (p : String × Factory) (rest : Registry) (g : Globals) :
    export_data_sources (p :: rest) g
      = export_data_sources rest (Function.update g p.1 (some p.2)) := rfl

theorem export_skip (r : Registry) (g : Globals) (n : String)
    (h : n ∉ r.map Prod.fst) :
    export_data_sources r g n = g n := by
  induction r generalizing g with
  | nil => rfl
  | cons p rest ih =>
    have h1 : n ≠ p.1 := fun he => h (by simp [he])
    have h2 : n ∉ rest.map Prod.fst := fun hm => h (by simp [hm])
    rw [export_cons, ih _ h2, Function.update_noteq h1]

theorem export_lookup (r : Registry) (g : Globals) (n : String) (f : Factory)
    (hnd : (r.map Prod.fst).Nodup) (hmem : (n, f) ∈ r) :
    export_data_sources r g n = some f := by
  induction r generalizing g with
  | nil => cases hmem
  | cons p rest ih =>
    rw [export_cons]
    rcases List.mem_cons.mp hmem with he | hm
    · have hn : n ∉ rest.map Prod.fst := by
        rw [List.map_cons, List.nodup_cons] at hnd
        rw [← he] at hnd
        exact hnd.1
      rw [export_skip _ _ _ hn, ← he, Function.update_same]
    · exact ih _ (by rw [List.map_cons, List.nodup_cons] at hnd; exact hnd.2) hm

end conky

namespace conky

/-! ### Claim theorems, second batch -/

/-- C4: after `export_data_sources`, every name registered (here with the
registry-key uniqueness invariant of the underlying `unordered_map`) has
exactly one callable bound to it in the global namespace — the registered
factory — and invoking that callable from any lua state yields a handle: the
stack afterwards holds a single userdata whose heap slot contains the newly
constructed data-source object, tagged with the shared metatable. -/
theorem export_binds_each_registered_name
    (r : Registry) (n : String) (c : VariantCtor)
    (hnd : (r.map Prod.fst).Nodup) (hmem : (n, factory c n) ∈ r) :
    export_data_sources r emptyGlobals n = some (factory c n) ∧
    ∀ s : LuaSt, ∃ id ds,
      (factory c n s).stack = [LuaVal.userdata id] ∧
      (factory c n s).objs[id]? = some (some ds, some priv.data_source_metatable) := by
  refine ⟨export_lookup r emptyGlobals n _ hnd hmem,
    fun s => ⟨s.objs.length, c (midState s) n, ?_, ?_⟩⟩
  · rw [factory_run]
  · rw [factory_run]
    exact List.getElem?_concat_length _ _

/-- A sample variant constructor: a `simple_numeric_source` over location 0. -/
def sampleCtor : VariantCtor := fun st m => simple_numeric_source st m 0

/-- Witness for C4: a one-entry registry for "uptime" exports a global bound to
its factory. -/
theorem export_binds_each_registered_name_witness :
    ((register_data_source "uptime" sampleCtor []).map Prod.fst).Nodup ∧
    ("uptime", factory sampleCtor "uptime") ∈ register_data_source "uptime" sampleCtor [] ∧
    export_data_sources (register_data_source "uptime" sampleCtor []) emptyGlobals "uptime"
      = some (factory sampleCtor "uptime") := by
  refine ⟨?_, ?_, ?_⟩
  · simp [register_data_source, do_register_data_source]
  · simp [register_data_source, do_register_data_source]
  · exact (export_binds_each_registered_name _ _ sampleCtor
      (by simp [register_data_source, do_register_data_source])
      (by simp [register_data_source, do_register_data_source])).1

/-- C7: `register_data_source` registers, under the name it captured, a factory
that allocates one fresh slot of lua-owned storage for the variant, constructs
the variant in place there from the captured name, and — whenever the variant's
constructor stores the passed name, as `data_source_base`'s constructor does —
the resulting object's name field equals the name it was registered under. -/
theorem factory_constructs_with_captured_name
    (c : VariantCtor) (n : String) (r : Registry) (s : LuaSt)
    (h : ∀ (st : LuaSt) (m : String), (c st m).name = m) :
    register_data_source n c r = r ++ [(n, factory c n)] ∧
    ∃ ds : DataSource,
      (factory c n s).objs = s.objs ++ [(some ds, some priv.data_source_metatable)] ∧
      ds.name = n :=
  ⟨rfl, ⟨c (midState s) n, by rw [factory_run], h _ _⟩⟩

/-- A lua state as a script's constructor call sees it: an argument table on
the stack, no bridged objects yet. -/
def initSt : LuaSt := { stack := [LuaVal.table 0], objs := [] }

/-- Witness for C7: constructing a registered "cpu_freq" numeric source yields
an object named "cpu_freq" in the single new slot. -/
theorem factory_constructs_with_captured_name_witness :
    (∀ (st : LuaSt) (m : String), (sampleCtor st m).name = m) ∧
    ∃ ds : DataSource,
      (factory sampleCtor "cpu_freq" initSt).objs
        = initSt.objs ++ [(some ds, some priv.data_source_metatable)] ∧
      ds.name = "cpu_freq" :=
  ⟨fun _ _ => rfl,
    (factory_constructs_with_captured_name sampleCtor "cpu_freq" [] initSt fun _ _ => rfl).2⟩

/-- C8: before a factory returns, the object it constructed is tagged with the
shared type descriptor: any two factory invocations — across variants, names
and lua states — attach the same single metatable, the one registered under the
key "conky::data_source_metatable". -/
theorem factory_tags_shared_metatable :
    ∀ (c₁ c₂ : VariantCtor) (n₁ n₂ : String) (s₁ s₂ : LuaSt),
      (∃ o₁, (factory c₁ n₁ s₁).objs[s₁.objs.length]?
          = some (o₁, some priv.data_source_metatable)) ∧
      (∃ o₂, (factory c₂ n₂ s₂).objs[s₂.objs.length]?
          = some (o₂, some priv.data_source_metatable)) ∧
      priv.data_source_metatable = "conky::data_source_metatable" := by
  intro c₁ c₂ n₁ n₂ s₁ s₂
  refine ⟨⟨some (c₁ (midState s₁) n₁), ?_⟩, ⟨some (c₂ (midState s₂) n₂), ?_⟩, rfl⟩ <;>
    · rw [factory_run]
      exact List.getElem?_concat_length _ _

/-- Invocation of the virtual `get_number` as an explicit state transformer:
the returned value together with the object and the store after the call.
Every `get_number`/`get_text` body in the source is a `const` member whose body
performs no write (`return *source;`, data-source.hh lines 75-76), so the
translated post-state is the pre-state; the frame theorem below records this. -/
def get_number_call (ds : DataSource) (σ : Store) : Dbl × DataSource × Store :=
  (get_number ds σ, ds, σ)

/-- Invocation of the virtual `get_text` as an explicit state transformer; see
`get_number_call`. -/
def get_text_call (ds : DataSource) (σ : Store) : String × DataSource × Store :=
  (get_text ds σ, ds, σ)

/-- C9: `get_number` and `get_text` are observation-only: the object and the
external store after a call equal those before it; the name field of every
variant equals the constructor argument and no operation mutates it afterwards
— in particular a factory invocation only appends a new slot, leaving every
previously constructed object (and its name) untouched. -/
theorem observers_leave_state_unchanged :
    ∀ (ds : DataSource) (σ : Store),
      (get_number_call ds σ).2.1 = ds ∧ (get_number_call ds σ).2.2 = σ ∧
      (get_text_call ds σ).2.1 = ds ∧ (get_text_call ds σ).2.2 = σ ∧
      (∀ {L : Type} (l : L) (n : String) (src : Loc),
        (simple_numeric_source l n src).name = n) ∧
      (∀ {L : Type} (l : L) (n setting : String),
        (priv.disabled_data_source l n setting).name = n) ∧
      (∀ (c : VariantCtor) (nm : String) (s : LuaSt),
        ∃ e, (factory c nm s).objs = s.objs ++ [e]) := by
  intro ds σ
  exact ⟨rfl, rfl, rfl, rfl, fun _ _ _ => rfl, fun _ _ _ => rfl,
    fun c nm s => ⟨_, by rw [factory_run]⟩⟩

end conky
